import Mathlib

/-!
Verification of `scripts/generate-icons.py` (VettID Android app icon generator).

The script is embedded as a pure trace semantics: everything the script decides
is a function of the decoded source image and the two destination directory
paths, so a run is modelled as a list of filesystem/print actions plus an
executor over an abstract filesystem state.  The Pillow library operations the
script calls are modelled as deterministic functions, faithful to their
documented behaviour (resize yields exactly the requested dimensions and keeps
the colour mode; convert sets the colour mode; PNG saving with fixed settings
is a deterministic, lossless encoding of the image).
-/

namespace GenIcons

/-- Resampling filters.  The script only ever uses `Image.LANCZOS`. -/
inductive Filter where
  | LANCZOS
deriving DecidableEq

/-- Abstract pixel payload, tracking provenance through the Pillow operations
the script performs.  Distinct operation histories are kept distinct (a free
model), which makes every operation deterministic without inventing equations
Pillow does not guarantee. -/
inductive PixelData where
  | src : Nat → PixelData
  | converted : String → PixelData → PixelData
  | resampled : Nat → Nat → Filter → PixelData → PixelData
deriving DecidableEq

/-- A decoded in-memory image: Pillow's `Image` objects as used by the script
(colour `mode` string, pixel `size`, pixel payload). -/
structure Image where
  mode : String
  size : Nat × Nat
  data : PixelData
deriving DecidableEq

/-- Pillow `Image.convert(mode)`: the result has the requested colour mode
(for RGBA targets, a fully opaque alpha channel is synthesized by Pillow when
the source has none; the payload records the conversion). -/
def Image.convert (img : Image) (m : String) : Image :=
  ⟨m, img.size, PixelData.converted m img.data⟩

/-- Pillow `Image.resize(size, filter)`: the result has exactly the requested
pixel dimensions (no aspect-ratio preservation, no dimension check) and keeps
the colour mode of the input. -/
def Image.resize (img : Image) (s : Nat × Nat) (f : Filter) : Image :=
  ⟨img.mode, s, PixelData.resampled s.1 s.2 f img.data⟩

/-- Contents of a file on disk.  `png img` is the byte string produced by
Pillow's deterministic, lossless PNG encoder (`save(..., 'PNG', optimize=True)`)
on `img`; byte-for-byte equality of two saved files is equality of `FileData`.
`raw` is any byte string that is not a decodable image. -/
inductive FileData where
  | png : Image → FileData
  | raw : List Nat → FileData
deriving DecidableEq

/-- Pillow `Image.open` on a file's bytes: succeeds exactly on decodable image
files and returns the decoded image; raises (here: `none`) otherwise. -/
def decodeImage : FileData → Option Image
  | FileData.png i => some i
  | FileData.raw _ => none

/-- The console messages the script prints, one constructor per `print` call,
carrying the interpolated values. -/
inductive Msg where
  | loadingSource : String → Msg
  | generatingIn : String → Msg
  | createdIcon : String → Nat → Msg
  | createdPlaystore : Msg
  | doneCount : Nat → Msg
  | sourceNotFound : String → Msg
  | provideHiRes : Msg
deriving DecidableEq

/-- The observable side effects of a run, in execution order. -/
inductive Action where
  | mkdirs : String → Action
  | writeFile : String → FileData → Action
  | printMsg : Msg → Action
deriving DecidableEq

/-- Abstract filesystem state: file contents by path, directory existence by
path.  Paths are the opaque strings the script builds with `os.path.join`. -/
@[ext]
structure FS where
  files : String → Option FileData
  dirs : String → Bool

/-- The empty filesystem. -/
def FS.empty : FS := ⟨fun _ => none, fun _ => false⟩

/-- `os.path.exists`: true for both files and directories. -/
def pathExists (fs : FS) (p : String) : Bool :=
  (fs.files p).isSome || fs.dirs p

/-- Effect of one action on the filesystem (`os.makedirs(..., exist_ok=True)`
creates the directory; `save` overwrites the file; printing changes nothing). -/
def applyAction (fs : FS) : Action → FS
  | Action.mkdirs p => { fs with dirs := fun q => if q = p then true else fs.dirs q }
  | Action.writeFile p d => { fs with files := fun q => if q = p then some d else fs.files q }
  | Action.printMsg _ => fs

/-- Run a list of actions left to right (the failure-free execution). -/
def applyActs (fs : FS) : List Action → FS
  | [] => fs
  | a :: rest => applyActs (applyAction fs a) rest

/-- `os.path.join` on POSIX with relative second component. -/
def pjoin (a b : String) : String := a ++ "/" ++ b

/-- `ANDROID_ICONS`: the fixed (directory, size) specification table. -/
def ANDROID_ICONS : List (String × Nat) :=
  [ ("mipmap-mdpi", 48),
    ("mipmap-hdpi", 72),
    ("mipmap-xhdpi", 96),
    ("mipmap-xxhdpi", 144),
    ("mipmap-xxxhdpi", 192) ]

/-- The two launcher-icon filenames written for every table entry, in the
order the inner loop iterates them. -/
def launcherNames : List String := ["ic_launcher.png", "ic_launcher_round.png"]

/-- The mode normalization at the top of `generate_icons`:
`if img.mode != 'RGBA': img = img.convert('RGBA')`. -/
def toRGBA (img : Image) : Image :=
  if img.mode ≠ "RGBA" then img.convert "RGBA" else img

/-- The action trace of `generate_icons` after the source image has been
decoded: the `print` of the target directory, then for each table entry in
order a `makedirs`, the two `save` calls (square filename first), and a
progress `print`; then the Play Store block and the final count report. -/
def iconActions (img0 : Image) (res_dir assets_dir : String) : List Action :=
  let img := toRGBA img0
  Action.printMsg (Msg.generatingIn res_dir) ::
  (ANDROID_ICONS.flatMap (fun entry =>
    let output_dir := pjoin res_dir entry.1
    let resized := img.resize (entry.2, entry.2) Filter.LANCZOS
    Action.mkdirs output_dir ::
    (launcherNames.map (fun name =>
      Action.writeFile (pjoin output_dir name) (FileData.png resized)) ++
     [Action.printMsg (Msg.createdIcon entry.1 entry.2)])))
  ++ [ Action.mkdirs assets_dir,
       Action.writeFile (pjoin assets_dir "ic_launcher-playstore.png")
         (FileData.png ((toRGBA img0).resize (512, 512) Filter.LANCZOS)),
       Action.printMsg Msg.createdPlaystore,
       Action.printMsg (Msg.doneCount (ANDROID_ICONS.length * 2 + 1)) ]

/-- The file writes in a trace, in order. -/
def writesOf (l : List Action) : List (String × FileData) :=
  l.filterMap fun a =>
    match a with
    | Action.writeFile p d => some (p, d)
    | _ => none

/-- The decoded images behind the file writes of a trace, in order. -/
def writtenImages (l : List Action) : List Image :=
  (writesOf l).filterMap fun pd =>
    match pd.2 with
    | FileData.png i => some i
    | _ => none

/-- The messages printed by a trace, in order. -/
def printedOf (l : List Action) : List Msg :=
  l.filterMap fun a =>
    match a with
    | Action.printMsg m => some m
    | _ => none

/-- The eleven output edge lengths in write order: two per table entry plus
the 512 Play Store icon. -/
def sizeList : List Nat := [48, 48, 72, 72, 96, 96, 144, 144, 192, 192, 512]

/-- The eleven output paths in write order. -/
def expectedPaths (res_dir assets_dir : String) : List String :=
  [ pjoin (pjoin res_dir "mipmap-mdpi") "ic_launcher.png",
    pjoin (pjoin res_dir "mipmap-mdpi") "ic_launcher_round.png",
    pjoin (pjoin res_dir "mipmap-hdpi") "ic_launcher.png",
    pjoin (pjoin res_dir "mipmap-hdpi") "ic_launcher_round.png",
    pjoin (pjoin res_dir "mipmap-xhdpi") "ic_launcher.png",
    pjoin (pjoin res_dir "mipmap-xhdpi") "ic_launcher_round.png",
    pjoin (pjoin res_dir "mipmap-xxhdpi") "ic_launcher.png",
    pjoin (pjoin res_dir "mipmap-xxhdpi") "ic_launcher_round.png",
    pjoin (pjoin res_dir "mipmap-xxxhdpi") "ic_launcher.png",
    pjoin (pjoin res_dir "mipmap-xxxhdpi") "ic_launcher_round.png",
    pjoin assets_dir "ic_launcher-playstore.png" ]

/-- The eleven (path, contents) writes in write order. -/
def expectedWrites (img0 : Image) (res_dir assets_dir : String) :
    List (String × FileData) :=
  let img := toRGBA img0
  [ (pjoin (pjoin res_dir "mipmap-mdpi") "ic_launcher.png",
       FileData.png (img.resize (48, 48) Filter.LANCZOS)),
    (pjoin (pjoin res_dir "mipmap-mdpi") "ic_launcher_round.png",
       FileData.png (img.resize (48, 48) Filter.LANCZOS)),
    (pjoin (pjoin res_dir "mipmap-hdpi") "ic_launcher.png",
       FileData.png (img.resize (72, 72) Filter.LANCZOS)),
    (pjoin (pjoin res_dir "mipmap-hdpi") "ic_launcher_round.png",
       FileData.png (img.resize (72, 72) Filter.LANCZOS)),
    (pjoin (pjoin res_dir "mipmap-xhdpi") "ic_launcher.png",
       FileData.png (img.resize (96, 96) Filter.LANCZOS)),
    (pjoin (pjoin res_dir "mipmap-xhdpi") "ic_launcher_round.png",
       FileData.png (img.resize (96, 96) Filter.LANCZOS)),
    (pjoin (pjoin res_dir "mipmap-xxhdpi") "ic_launcher.png",
       FileData.png (img.resize (144, 144) Filter.LANCZOS)),
    (pjoin (pjoin res_dir "mipmap-xxhdpi") "ic_launcher_round.png",
       FileData.png (img.resize (144, 144) Filter.LANCZOS)),
    (pjoin (pjoin res_dir "mipmap-xxxhdpi") "ic_launcher.png",
       FileData.png (img.resize (192, 192) Filter.LANCZOS)),
    (pjoin (pjoin res_dir "mipmap-xxxhdpi") "ic_launcher_round.png",
       FileData.png (img.resize (192, 192) Filter.LANCZOS)),
    (pjoin assets_dir "ic_launcher-playstore.png",
       FileData.png (img.resize (512, 512) Filter.LANCZOS)) ]

theorem writesOf_iconActions (img : Image) (res_dir assets_dir : String) :
    writesOf (iconActions img res_dir assets_dir) =
      expectedWrites img res_dir assets_dir := rfl

theorem expectedWrites_fst (img : Image) (res_dir assets_dir : String) :
    (expectedWrites img res_dir assets_dir).map Prod.fst =
      expectedPaths res_dir assets_dir := rfl

/-- `pathlib.Path(p).parent`: the characters of `p` before its last slash
(`"."` when there is no slash, `"/"` when the last slash is the leading one). -/
def parentDir (p : String) : String :=
  match (p.data.reverse).dropWhile (fun c => c ≠ '/') with
  | [] => "."
  | [_] => "/"
  | _ :: t => String.mk t.reverse

/-- `main`'s source resolution: `sys.argv[1] if len(sys.argv) > 1 else`
the default path `script_dir.parent / "app" / "src" / "main" / "assets" /
"vettid-icon-300.png"` (where `script_dir = Path(__file__).parent`). -/
def resolvedSource (argv : List String) (script_file : String) : String :=
  match argv with
  | _ :: a :: _ => a
  | _ =>
    pjoin (pjoin (pjoin (pjoin (pjoin (parentDir (parentDir script_file))
      "app") "src") "main") "assets") "vettid-icon-300.png"

/-- `main`'s `res_dir`: `script_dir.parent / "app" / "src" / "main" / "res"`,
derived from the script's own location only. -/
def resDirFor (script_file : String) : String :=
  pjoin (pjoin (pjoin (pjoin (parentDir (parentDir script_file))
    "app") "src") "main") "res"

/-- `main`'s `assets_dir`: `script_dir.parent / "app" / "src" / "main" /
"assets"`, derived from the script's own location only. -/
def assetsDirFor (script_file : String) : String :=
  pjoin (pjoin (pjoin (pjoin (parentDir (parentDir script_file))
    "app") "src") "main") "assets"

/-- Outcome of a whole process run: the final filesystem, the messages
printed, and the process exit code. -/
structure RunResult where
  fs : FS
  msgs : List Msg
  exitCode : Nat

/-- The body of `main` after path resolution: the `os.path.exists` guard
(missing source prints the two error lines and exits with status 1 touching
nothing), then `generate_icons`.  A source that exists but cannot be decoded
(a directory, or bytes that are not an image) makes `Image.open` raise after
the "Loading source image" print; the uncaught exception terminates the
process with status 1 and nothing written. -/
def main_core (source res_dir assets_dir : String) (fs : FS) : RunResult :=
  if pathExists fs source then
    match fs.files source with
    | none => ⟨fs, [Msg.loadingSource source], 1⟩
    | some fd =>
      match decodeImage fd with
      | none => ⟨fs, [Msg.loadingSource source], 1⟩
      | some img =>
        let acts := iconActions img res_dir assets_dir
        ⟨applyActs fs acts, Msg.loadingSource source :: printedOf acts, 0⟩
  else
    ⟨fs, [Msg.sourceNotFound source, Msg.provideHiRes], 1⟩

/-- `main`: resolve the source from `sys.argv` and the two destination
directories from the script's location, then run the generator body. -/
def main_model (argv : List String) (script_file : String) (fs : FS) : RunResult :=
  main_core (resolvedSource argv script_file) (resDirFor script_file)
    (assetsDirFor script_file) fs

/-- Placeholder action used with `List.getD`. -/
def dfltAction : Action := Action.printMsg Msg.createdPlaystore

/-- Execute actions sequentially against an environment `ok` that says
whether the `i`-th operation succeeds; the first failing operation aborts the
run on the spot (no retry, no cleanup), returning the state reached so far and
`false`. -/
def runWithFaults (ok : Nat → Action → Bool) : Nat → FS → List Action → FS × Bool
  | _, fs, [] => (fs, true)
  | i, fs, a :: rest =>
    if ok i a then runWithFaults ok (i + 1) (applyAction fs a) rest
    else (fs, false)

/-- The last (winning) write to path `p` among an ordered list of writes. -/
def lastWriteIn : List (String × FileData) → String → Option FileData
  | [], _ => none
  | pd :: rest, p =>
    match lastWriteIn rest p with
    | some v => some v
    | none => if p = pd.1 then some pd.2 else none

/-- Whether the trace contains a `mkdirs` for directory `p`. -/
def dirMade (p : String) : List Action → Bool
  | [] => false
  | Action.mkdirs q :: rest => if p = q then true else dirMade p rest
  | _ :: rest => dirMade p rest

theorem applyActs_files (l : List Action) (fs : FS) (p : String) :
    (applyActs fs l).files p =
      (lastWriteIn (writesOf l) p).elim (fs.files p) some := by
  induction l generalizing fs with
  | nil => rfl
  | cons a rest ih =>
    cases a with
    | mkdirs q =>
      simpa [writesOf, applyActs, applyAction] using ih _
    | printMsg m =>
      simpa [writesOf, applyActs, applyAction] using ih _
    | writeFile q d =>
      show (applyActs (applyAction fs (Action.writeFile q d)) rest).files p = _
      rw [ih]
      simp only [writesOf, List.filterMap_cons, lastWriteIn]
      cases h : lastWriteIn (writesOf rest) p with
      | some v => simp [writesOf] at h; simp [h]
      | none =>
        simp [writesOf] at h
        simp only [h, applyAction]
        by_cases hpq : p = q <;> simp [hpq]

theorem applyActs_dirs (l : List Action) (fs : FS) (p : String) :
    (applyActs fs l).dirs p = (dirMade p l || fs.dirs p) := by
  induction l generalizing fs with
  | nil => rfl
  | cons a rest ih =>
    cases a with
    | mkdirs q =>
      show (applyActs (applyAction fs (Action.mkdirs q)) rest).dirs p = _
      rw [ih]
      simp only [applyAction, dirMade]
      by_cases hpq : p = q <;> simp [hpq]
    | printMsg m =>
      simpa [dirMade, applyActs, applyAction] using ih _
    | writeFile q d =>
      simpa [dirMade, applyActs, applyAction] using ih _

theorem applyActs_replay (l : List Action) (fs : FS) :
    applyActs (applyActs fs l) l = applyActs fs l := by
  apply FS.ext
  · funext p
    rw [applyActs_files, applyActs_files]
    cases h : lastWriteIn (writesOf l) p <;> simp [h]
  · funext p
    rw [applyActs_dirs, applyActs_dirs, ← Bool.or_assoc, Bool.or_self]

theorem lastWriteIn_isSome (l : List (String × FileData)) (p : String)
    (h : p ∈ l.map Prod.fst) : (lastWriteIn l p).isSome = true := by
  induction l with
  | nil => simp at h
  | cons pd rest ih =>
    simp only [List.map_cons, List.mem_cons] at h
    simp only [lastWriteIn]
    cases hrest : lastWriteIn rest p with
    | some v => rfl
    | none =>
      rcases h with h | h
      · simp [h]
      · have := ih h
        rw [hrest] at this
        simp at this

theorem runWithFaults_spec (ok : Nat → Action → Bool) :
    ∀ (l : List Action) (i k : Nat) (fs : FS), k < l.length →
      (∀ j, j < k → ok (i + j) (l.getD j dfltAction) = true) →
      ok (i + k) (l.getD k dfltAction) = false →
      runWithFaults ok i fs l = (applyActs fs (l.take k), false) := by
  intro l
  induction l with
  | nil => intro i k fs hk _ _; simp at hk
  | cons a rest ih =>
    intro i k fs hk hpre hfail
    cases k with
    | zero =>
      have h0 : ok i a = false := by simpa using hfail
      simp [runWithFaults, h0, applyActs]
    | succ k =>
      have h0 : ok i a = true := by simpa using hpre 0 (Nat.succ_pos k)
      have step : runWithFaults ok i fs (a :: rest) =
          runWithFaults ok (i + 1) (applyAction fs a) rest := by
        simp [runWithFaults, h0]
      rw [step]
      have hk' : k < rest.length := Nat.lt_of_succ_lt_succ (by simpa using hk)
      have hpre' : ∀ j, j < k →
          ok (i + 1 + j) (rest.getD j dfltAction) = true := by
        intro j hj
        have e : i + (j + 1) = i + 1 + j := by omega
        have := hpre (j + 1) (Nat.succ_lt_succ hj)
        rw [List.getD_cons_succ, e] at this
        exact this
      have hfail' : ok (i + 1 + k) (rest.getD k dfltAction) = false := by
        have e : i + (k + 1) = i + 1 + k := by omega
        rw [List.getD_cons_succ, e] at hfail
        exact hfail
      rw [ih (i + 1) k (applyAction fs a) hk' hpre' hfail']
      simp [List.take_succ_cons, applyActs]

/-- A decodable RGBA source image (used to instantiate hypotheses). -/
def testImg : Image := ⟨"RGBA", (300, 300), PixelData.src 0⟩

/-- A decodable RGB (no alpha) source image. -/
def testRGB : Image := ⟨"RGB", (300, 200), PixelData.src 1⟩

/-- A filesystem holding one undecodable file at `"bad.png"`. -/
def badFS : FS :=
  ⟨fun p => if p = "bad.png" then some (FileData.raw [0]) else none,
   fun _ => false⟩

/-- An environment whose fourth operation (index 3) fails. -/
def failAt3 : Nat → Action → Bool := fun i _ => decide (i < 3)

/-- C1: for every valid decodable source image, a run of the generator writes
exactly 11 output files — for each of the five fixed table entries the two
files `ic_launcher.png` and `ic_launcher_round.png` under
`resDirectory/name`, plus `ic_launcher-playstore.png` under
`assetsDirectory` — every one of those paths holds a file afterwards, and the
reported completion count equals table length × 2 + 1 = 11. -/
theorem c1_eleven_outputs_and_count (fd : FileData) (img : Image)
    (res_dir assets_dir : String) (fs : FS)
    (hdec : decodeImage fd = some img) :
    (writesOf (iconActions img res_dir assets_dir)).map Prod.fst =
        expectedPaths res_dir assets_dir ∧
    (expectedPaths res_dir assets_dir).length = 11 ∧
    Msg.doneCount (ANDROID_ICONS.length * 2 + 1) ∈
        printedOf (iconActions img res_dir assets_dir) ∧
    ANDROID_ICONS.length * 2 + 1 = 11 ∧
    ∀ p ∈ expectedPaths res_dir assets_dir,
      ((applyActs fs (iconActions img res_dir assets_dir)).files p).isSome = true := by
  refine ⟨rfl, rfl, ?_, rfl, ?_⟩
  · simp [printedOf, iconActions, ANDROID_ICONS, launcherNames]
  · intro p hp
    rw [applyActs_files, writesOf_iconActions]
    have hs : (lastWriteIn (expectedWrites img res_dir assets_dir) p).isSome = true := by
      apply lastWriteIn_isSome
      rw [expectedWrites_fst]
      exact hp
    obtain ⟨v, hv⟩ := Option.isSome_iff_exists.mp hs
    rw [hv]
    rfl

theorem c1_witness :
    decodeImage (FileData.png testImg) = some testImg ∧
    ((applyActs FS.empty (iconActions testImg "res" "assets")).files
      (pjoin "assets" "ic_launcher-playstore.png")).isSome = true :=
  ⟨rfl,
   (c1_eleven_outputs_and_count (FileData.png testImg) testImg "res" "assets"
      FS.empty rfl).2.2.2.2 _ (by simp [expectedPaths])⟩

/-- C2: every output image is square with edge length exactly its
table-specified value (48, 72, 96, 144, 192), the Play Store output is
exactly 512×512, and all eleven outputs are resampled from the same single
decoded (normalized) source image. -/
theorem c2_sizes_single_source (img : Image) (res_dir assets_dir : String) :
    writtenImages (iconActions img res_dir assets_dir) =
      sizeList.map (fun n => (toRGBA img).resize (n, n) Filter.LANCZOS) ∧
    (writtenImages (iconActions img res_dir assets_dir)).map Image.size =
      sizeList.map (fun n => (n, n)) ∧
    (writtenImages (iconActions img res_dir assets_dir)).getLast? =
      some ((toRGBA img).resize (512, 512) Filter.LANCZOS) :=
  ⟨rfl, rfl, rfl⟩

/-- C3: for every table entry `(name, size)`, the two files
`ic_launcher.png` and `ic_launcher_round.png` written under
`resDirectory/name` in the same run carry byte-for-byte identical contents,
differing only in filename. -/
theorem c3_square_round_identical (img : Image) (res_dir assets_dir : String)
    (name : String) (size : Nat) (h : (name, size) ∈ ANDROID_ICONS) :
    ∃ d : FileData,
      (pjoin (pjoin res_dir name) "ic_launcher.png", d) ∈
        writesOf (iconActions img res_dir assets_dir) ∧
      (pjoin (pjoin res_dir name) "ic_launcher_round.png", d) ∈
        writesOf (iconActions img res_dir assets_dir) := by
  rw [writesOf_iconActions]
  simp only [ANDROID_ICONS, List.mem_cons, List.not_mem_nil, or_false,
    Prod.mk.injEq] at h
  rcases h with ⟨rfl, rfl⟩ | ⟨rfl, rfl⟩ | ⟨rfl, rfl⟩ | ⟨rfl, rfl⟩ | ⟨rfl, rfl⟩
  · exact ⟨FileData.png ((toRGBA img).resize (48, 48) Filter.LANCZOS),
      by simp [expectedWrites], by simp [expectedWrites]⟩
  · exact ⟨FileData.png ((toRGBA img).resize (72, 72) Filter.LANCZOS),
      by simp [expectedWrites], by simp [expectedWrites]⟩
  · exact ⟨FileData.png ((toRGBA img).resize (96, 96) Filter.LANCZOS),
      by simp [expectedWrites], by simp [expectedWrites]⟩
  · exact ⟨FileData.png ((toRGBA img).resize (144, 144) Filter.LANCZOS),
      by simp [expectedWrites], by simp [expectedWrites]⟩
  · exact ⟨FileData.png ((toRGBA img).resize (192, 192) Filter.LANCZOS),
      by simp [expectedWrites], by simp [expectedWrites]⟩

theorem c3_witness :
    ∃ d : FileData,
      (pjoin (pjoin "res" "mipmap-mdpi") "ic_launcher.png", d) ∈
        writesOf (iconActions testImg "res" "assets") ∧
      (pjoin (pjoin "res" "mipmap-mdpi") "ic_launcher_round.png", d) ∈
        writesOf (iconActions testImg "res" "assets") :=
  c3_square_round_identical testImg "res" "assets" "mipmap-mdpi" 48 (by decide)

/-- C4: a source whose decoded format is not RGBA is converted to RGBA before
any resizing (Pillow synthesizes fully opaque alpha), and every one of the 11
output images is in the RGBA color format, each being a resize of the
normalized image. -/
theorem c4_rgba_conversion (img : Image) (res_dir assets_dir : String) :
    (img.mode ≠ "RGBA" → toRGBA img = img.convert "RGBA") ∧
    (toRGBA img).mode = "RGBA" ∧
    ∀ o ∈ writtenImages (iconActions img res_dir assets_dir),
      o.mode = "RGBA" ∧
      ∃ n ∈ sizeList, o = (toRGBA img).resize (n, n) Filter.LANCZOS := by
  have hmode : (toRGBA img).mode = "RGBA" := by
    by_cases h : img.mode = "RGBA" <;> simp [toRGBA, h, Image.convert]
  refine ⟨fun h => by simp [toRGBA, h], hmode, ?_⟩
  intro o ho
  have hw : writtenImages (iconActions img res_dir assets_dir) =
      sizeList.map (fun n => (toRGBA img).resize (n, n) Filter.LANCZOS) := rfl
  rw [hw] at ho
  simp only [List.mem_map] at ho
  obtain ⟨n, hn, rfl⟩ := ho
  exact ⟨hmode, n, hn, rfl⟩

theorem c4_witness :
    toRGBA testRGB = testRGB.convert "RGBA" ∧
    (toRGBA testRGB).mode = "RGBA" ∧
    ((toRGBA testRGB).resize (48, 48) Filter.LANCZOS).mode = "RGBA" :=
  ⟨(c4_rgba_conversion testRGB "res" "assets").1 (by decide),
   (c4_rgba_conversion testRGB "res" "assets").2.1,
   ((c4_rgba_conversion testRGB "res" "assets").2.2
      ((toRGBA testRGB).resize (48, 48) Filter.LANCZOS) (by decide)).1⟩

/-- C5: when the resolved source path does not exist, the process exits with
status 1 after printing a diagnostic that contains the attempted path, and
the filesystem is left completely unchanged (no directory created, no file
written). -/
theorem c5_missing_source_unchanged (argv : List String) (script_file : String)
    (fs : FS) (h : pathExists fs (resolvedSource argv script_file) = false) :
    main_model argv script_file fs =
      ⟨fs, [Msg.sourceNotFound (resolvedSource argv script_file),
            Msg.provideHiRes], 1⟩ := by
  simp [main_model, main_core, h]

theorem c5_witness :
    main_model ["prog", "missing.png"] "scripts/generate-icons.py" FS.empty =
      ⟨FS.empty, [Msg.sourceNotFound "missing.png", Msg.provideHiRes], 1⟩ :=
  c5_missing_source_unchanged ["prog", "missing.png"]
    "scripts/generate-icons.py" FS.empty rfl

/-- C6: running the generator a second time with the same source image and
the same destination directories leaves the filesystem byte-identical to the
first run's result — the trace is a deterministic function of its inputs and
replaying it is idempotent. -/
theorem c6_rerun_idempotent (img : Image) (res_dir assets_dir : String) (fs : FS) :
    applyActs (applyActs fs (iconActions img res_dir assets_dir))
        (iconActions img res_dir assets_dir) =
      applyActs fs (iconActions img res_dir assets_dir) :=
  applyActs_replay _ _

/-- C7: a decode failure aborts the run with nothing written, and a
filesystem failure at any operation aborts the run right there with no retry
and no cleanup: the state is exactly the sequential application of the
operations before the failing one, so earlier outputs remain and no later
output is written. -/
theorem c7_abort_no_cleanup :
    (∀ (argv : List String) (script_file : String) (fs : FS) (fd : FileData),
        fs.files (resolvedSource argv script_file) = some fd →
        decodeImage fd = none →
        main_model argv script_file fs =
          ⟨fs, [Msg.loadingSource (resolvedSource argv script_file)], 1⟩) ∧
    (∀ (ok : Nat → Action → Bool) (fs : FS) (img : Image)
        (res_dir assets_dir : String) (k : Nat),
        k < (iconActions img res_dir assets_dir).length →
        (∀ j, j < k →
          ok j ((iconActions img res_dir assets_dir).getD j dfltAction) = true) →
        ok k ((iconActions img res_dir assets_dir).getD k dfltAction) = false →
        runWithFaults ok 0 fs (iconActions img res_dir assets_dir) =
          (applyActs fs ((iconActions img res_dir assets_dir).take k), false)) := by
  constructor
  · intro argv script_file fs fd h1 h2
    simp [main_model, main_core, pathExists, h1, h2]
  · intro ok fs img res_dir assets_dir k hk hpre hfail
    refine runWithFaults_spec ok _ 0 k fs hk (fun j hj => ?_) ?_
    · simpa using hpre j hj
    · simpa using hfail

theorem c7_witness :
    main_model ["prog", "bad.png"] "scripts/generate-icons.py" badFS =
      ⟨badFS, [Msg.loadingSource "bad.png"], 1⟩ ∧
    runWithFaults failAt3 0 FS.empty (iconActions testImg "res" "assets") =
      (applyActs FS.empty ((iconActions testImg "res" "assets").take 3), false) :=
  ⟨c7_abort_no_cleanup.1 ["prog", "bad.png"] "scripts/generate-icons.py" badFS
      (FileData.raw [0]) (by decide) rfl,
   c7_abort_no_cleanup.2 failAt3 FS.empty testImg "res" "assets" 3
      (by decide) (by decide) (by decide)⟩

/-- C8: the eleven writes execute strictly sequentially in the fixed table
order — mdpi, hdpi, xhdpi, xxhdpi, xxxhdpi, square file before round file
within each entry — and the 512×512 Play Store icon write is the last one,
after all five table entries. -/
theorem c8_sequential_write_order (img : Image) (res_dir assets_dir : String) :
    writesOf (iconActions img res_dir assets_dir) =
      expectedWrites img res_dir assets_dir ∧
    (writesOf (iconActions img res_dir assets_dir)).getLast? =
      some (pjoin assets_dir "ic_launcher-playstore.png",
        FileData.png ((toRGBA img).resize (512, 512) Filter.LANCZOS)) :=
  ⟨rfl, rfl⟩

/-- C9: for a decodable source of any dimensions — non-square or smaller than
the targets — the generator still writes all eleven outputs at exactly their
specified square dimensions: the source is stretched or upscaled with no
dimension check and no error. -/
theorem c9_any_dimensions (w h : Nat) (m : String) (d : PixelData)
    (res_dir assets_dir : String) :
    (writesOf (iconActions ⟨m, (w, h), d⟩ res_dir assets_dir)).map Prod.fst =
      expectedPaths res_dir assets_dir ∧
    (writtenImages (iconActions ⟨m, (w, h), d⟩ res_dir assets_dir)).map
        Image.size = sizeList.map (fun n => (n, n)) :=
  ⟨rfl, rfl⟩

/-- C10: with more than one command-line argument, only the first positional
argument is used (as the source path) and further arguments are silently
ignored; the res and assets directories are always the fixed paths derived
from the script's own location, never from the arguments. -/
theorem c10_argv_handling :
    (∀ (prog a : String) (rest : List String) (script_file : String),
        resolvedSource (prog :: a :: rest) script_file = a) ∧
    (∀ (prog1 prog2 a : String) (rest1 rest2 : List String)
        (script_file : String) (fs : FS),
        main_model (prog1 :: a :: rest1) script_file fs =
          main_model (prog2 :: a :: rest2) script_file fs) ∧
    (∀ (argv : List String) (script_file : String) (fs : FS),
        main_model argv script_file fs =
          main_core (resolvedSource argv script_file) (resDirFor script_file)
            (assetsDirFor script_file) fs) :=
  ⟨fun _ _ _ _ => rfl, fun _ _ _ _ _ _ _ => rfl, fun _ _ _ => rfl⟩

end GenIcons
